import Mathlib

/-!
Verification of the image-analysis HTTP gateway
(siedner/nodejs-serverless-function-express).

Shallow embedding of the request-handling pipeline:
  - a JSON value model (JVal) for request bodies and provider payloads;
  - the Joi schema validator of the secured Express variant (app.js) and of
    the aws-serverless-express variant;
  - the per-analysis-type payload mappers of every route;
  - the API-key / timestamp / rate-limit gate of the secured variant;
  - the legacy appKey resolver of both variants;
  - the upstream-error classification of every catch block.

HTTP and network effects are modelled by the Outcome type: a handler either
responds locally or proceeds to exactly one upstream provider call carrying
the built payload; an Outcome.upstream value is the single outbound call.
-/

set_option autoImplicit false

namespace Gateway

/-- JSON values, as parsed from a request body.  A missing object field is
represented by Option.none at the lookup site (JavaScript undefined). -/
inductive JVal where
  | null
  | bool (b : Bool)
  | num (n : Int)
  | str (s : String)
  | arr (xs : List JVal)
  | obj (fields : List (String × JVal))

/-- A request body: the parsed top-level JSON object's field list. -/
abbrev Body := List (String × JVal)

/-- Property lookup on an object field list (JavaScript member access on a
parsed body; none models undefined). -/
def jget (b : Body) (k : String) : Option JVal :=
  (b.find? (fun p => p.1 == k)).map Prod.snd

/-- Property access on an arbitrary JSON value, as JavaScript evaluates
tag.name: a field lookup on objects, undefined on other values. -/
def jprop (v : JVal) (k : String) : Option JVal :=
  match v with
  | .obj fs => jget fs k
  | _ => none

/-- Serialization of a possibly-undefined field: JSON.stringify drops keys
whose value is undefined, so an absent value contributes no key. -/
def jsonField (k : String) (v : Option JVal) : List (String × JVal) :=
  match v with
  | some x => [(k, x)]
  | none => []

/-- JavaScript truthiness of a possibly-undefined JSON value. -/
def truthy : Option JVal → Bool
  | none => false
  | some .null => false
  | some (.bool b) => b
  | some (.num n) => !(n == 0)
  | some (.str s) => !(s == "")
  | some (.arr _) => true
  | some (.obj _) => true

/-- The JavaScript expression v or-else d (the logical-or default idiom):
the value itself when truthy, otherwise the default. -/
def jsOr (v : Option JVal) (d : JVal) : JVal :=
  if truthy v then v.getD d else d

/-- Whether the value is precisely the given string (the comparison a
JavaScript switch statement performs on a case label). -/
def isStrVal (v : Option JVal) (s : String) : Bool :=
  match v with
  | some (.str t) => t == s
  | _ => false

/-- Whether a JSON object carries the given key. -/
def objHasKey (v : JVal) (k : String) : Bool :=
  match v with
  | .obj fs => fs.any (fun p => p.1 == k)
  | _ => false

/-- The JSON body of an HTTP error or success response; absent fields are
none.  Only the fields the routes actually emit are modelled. -/
structure RespBody where
  error : Option String := none
  message : Option String := none
  code : Option String := none
  details : Option String := none
deriving DecidableEq

/-- An HTTP response: status code plus JSON body. -/
structure Response where
  status : Nat
  body : RespBody
deriving DecidableEq

/-- The observable outcome of running a route handler on a request: either a
local HTTP response (no outbound call), or exactly one outbound call to the
provider's per-analysis-type endpoint with the built payload. -/
inductive Outcome where
  | respond (r : Response)
  | upstream (analysisType : String) (payload : JVal)

/-! ## Payload mapper of the secured /analyze route (app.js lines 239-274)

The route destructures the validated body into imageUrl, analysis_type,
prompts, tags and multi_label and switches on analysis_type.  The validator
guarantees prompts is a string array for the two prompt-driven types and
tags is an array of name/description objects for tagging, so the switch is
embedded over those destructured, typed values. -/

/-- A validated tag object: name and description strings, plus whatever
extra fields the input object carried. -/
structure InputTag where
  name : String
  description : String
  extra : List (String × JVal) := []

/-- The tags.map callback of app.js lines 258-263: each tag is reduced to an
object holding exactly its name and description. -/
def formatTag (t : InputTag) : JVal :=
  .obj [("name", .str t.name), ("description", .str t.description)]

/-- The switch of app.js lines 248-269 building the parameters object.
A fall-through analysis type leaves parameters empty (no default case). -/
def analyzeParameters (analysis_type : String) (prompts : List String)
    (tags : List InputTag) (multi_label : Option Bool) : List (String × JVal) :=
  if analysis_type == "ai_vision_general" then
    [("prompts", .arr (prompts.map JVal.str))]
  else if analysis_type == "ai_vision_moderation" then
    [("rejection_questions", .arr (prompts.map JVal.str))]
  else if analysis_type == "ai_vision_tagging" then
    ("tag_definitions", .arr (tags.map formatTag)) ::
      (match multi_label with
       | some v => [("multi_label", .bool v)]
       | none => [])
  else []

/-- The payload of app.js lines 271-274: the source object spread together
with the parameters built by the switch. -/
def analyzePayload (imageUrl : String) (analysis_type : String)
    (prompts : List String) (tags : List InputTag)
    (multi_label : Option Bool) : JVal :=
  .obj (("source", .obj [("uri", .str imageUrl)]) ::
        analyzeParameters analysis_type prompts tags multi_label)

/-- Claim C1: for every validated request, the payload mapper places the
prompts array verbatim (same elements, same order, no deduplication) into
the field selected by the analysis type, prompts for general and
rejection_questions for moderation, and the resulting payload consists of
exactly the source object plus that one parameter field. -/
theorem prompts_mapped_verbatim_exact_payload :
    ∀ (url : String) (ps : List String) (tg : List InputTag) (ml : Option Bool),
      analyzePayload url "ai_vision_general" ps tg ml =
        .obj [("source", .obj [("uri", .str url)]),
              ("prompts", .arr (ps.map JVal.str))] ∧
      analyzePayload url "ai_vision_moderation" ps tg ml =
        .obj [("source", .obj [("uri", .str url)]),
              ("rejection_questions", .arr (ps.map JVal.str))] := by
  intro url ps tg ml
  exact ⟨rfl, rfl⟩

/-- Claim C2: for tagging requests the tag_definitions array has the same
length as the input tags array, each entry is exactly the name/description
pair of the corresponding input tag with any extra fields dropped, order is
preserved, multi_label appears in the payload carrying the request value
exactly when it was supplied, and for the other two analysis types
multi_label is never present. -/
theorem tagging_payload_shape :
    ∀ (url : String) (ps : List String) (tg : List InputTag) (b : Bool)
      (ml : Option Bool),
      analyzePayload url "ai_vision_tagging" ps tg (some b) =
        .obj [("source", .obj [("uri", .str url)]),
              ("tag_definitions", .arr (tg.map formatTag)),
              ("multi_label", .bool b)] ∧
      analyzePayload url "ai_vision_tagging" ps tg none =
        .obj [("source", .obj [("uri", .str url)]),
              ("tag_definitions", .arr (tg.map formatTag))] ∧
      (tg.map formatTag).length = tg.length ∧
      (∀ (n d : String) (ex : List (String × JVal)),
        formatTag ⟨n, d, ex⟩ = .obj [("name", .str n), ("description", .str d)]) ∧
      objHasKey (analyzePayload url "ai_vision_general" ps tg ml) "multi_label" = false ∧
      objHasKey (analyzePayload url "ai_vision_moderation" ps tg ml) "multi_label" = false := by
  intro url ps tg b ml
  refine ⟨rfl, rfl, List.length_map _ _, fun n d ex => rfl, rfl, rfl⟩

/-! ## Schema Validator (Joi analyzeSchema)

The secured variant (app.js lines 171-192) and the aws-serverless-express
variant carry the same schema except that only the secured one adds the two
extra imageUrl regex patterns and the no-HTML-tags patterns on tag fields;
the strict flag selects between them.  Joi validates with abortEarly, so
the first violation found is the single reported error, and unrecognized
top-level keys are not allowed.  The route answers with
validation.error.details[0].message, i.e. exactly that first message.

Joi's full RFC 3986 uri check is abstracted to: the string starts with the
scheme http:// or https:// and has a nonempty remainder.  The reported
message texts follow Joi's shape (they always name the offending field) but
are abbreviated. -/

/-- Whether the second character list is an initial segment of the first. -/
def listHasPre : List Char → List Char → Bool
  | _, [] => true
  | [], _ :: _ => false
  | c :: cs, p :: ps => c == p && listHasPre cs ps

/-- Whether the pattern occurs as a contiguous sublist. -/
def listHasSub (s pat : List Char) : Bool :=
  match s with
  | [] => pat.isEmpty
  | _ :: cs => listHasPre s pat || listHasSub cs pat

/-- Whether the string starts with the given scheme text. -/
def strHasPre (s pre : String) : Bool :=
  listHasPre s.toList pre.toList

/-- Whether a string passes the uri check with scheme http or https
(abstraction of Joi uri validation, see section comment). -/
def isValidHttpUri (s : String) : Bool :=
  (strHasPre s "http://" && s.length > 7) ||
  (strHasPre s "https://" && s.length > 8)

/-- ASCII lowercasing of one character (the case-insensitive regex flag). -/
def lcChar (c : Char) : Char :=
  if 'A' ≤ c && c ≤ 'Z' then Char.ofNat (c.toNat + 32) else c

/-- Whether the lowercase pattern occurs in the string, case-insensitively. -/
def hasSubCi (s pat : String) : Bool :=
  listHasSub (s.toList.map lcChar) pat.toList

/-- The inverted imageUrl pattern of app.js line 174: the request is
rejected when the URL mentions a loopback host or a file or data scheme,
case-insensitively. -/
def blockedHostPattern (s : String) : Bool :=
  hasSubCi s "localhost" || hasSubCi s "127.0.0.1" || hasSubCi s "0.0.0.0" ||
  hasSubCi s "file:" || hasSubCi s "data:"

/-- A string in double quotes, as Joi messages render field names. -/
def quoted (k : String) : String := "\"" ++ k ++ "\""

/-- The imageUrl rules: required string, valid http/https uri, and in the
secured variant the valid-URL pattern and the inverted loopback pattern. -/
def checkImageUrl (strict : Bool) (b : Body) : Except String Unit :=
  match jget b "imageUrl" with
  | none => .error (quoted "imageUrl" ++ " is required")
  | some (.str u) =>
    if !isValidHttpUri u then
      .error (quoted "imageUrl" ++ " must be a valid uri with a scheme matching the http|https pattern")
    else if strict && !(strHasPre u "http://" || strHasPre u "https://") then
      .error (quoted "imageUrl" ++ " with value fails to match the valid URL pattern")
    else if strict && blockedHostPattern u then
      .error (quoted "imageUrl" ++ " with value matches the inverted pattern")
    else .ok ()
  | some _ => .error (quoted "imageUrl" ++ " must be a string")

/-- The analysis_type rules: required, one of the three enumerated values;
on success the value is returned for the conditional prompts/tags rules. -/
def checkAnalysisType (b : Body) : Except String String :=
  match jget b "analysis_type" with
  | none => .error (quoted "analysis_type" ++ " is required")
  | some (.str t) =>
    if t == "ai_vision_general" || t == "ai_vision_moderation" || t == "ai_vision_tagging" then
      .ok t
    else
      .error (quoted "analysis_type" ++ " must be one of [ai_vision_general, ai_vision_moderation, ai_vision_tagging]")
  | some _ => .error (quoted "analysis_type" ++ " must be a string")

/-- One prompts item: a string of at most 1000 characters. -/
def checkPromptItem (v : JVal) : Option String :=
  match v with
  | .str s =>
    if s.length > 1000 then
      some (quoted "prompts" ++ " item length must be less than or equal to 1000 characters long")
    else none
  | _ => some (quoted "prompts" ++ " item must be a string")

/-- The prompts rules: when present, an array of at most 10 bounded
strings; required exactly when the analysis type is not tagging (the Joi
when-condition).  No minimum length is imposed. -/
def checkPrompts (b : Body) (ty : String) : Except String Unit :=
  match jget b "prompts" with
  | some (.arr xs) =>
    match xs.findSome? checkPromptItem with
    | some e => .error e
    | none =>
      if xs.length > 10 then
        .error (quoted "prompts" ++ " must contain less than or equal to 10 items")
      else .ok ()
  | some _ => .error (quoted "prompts" ++ " must be an array")
  | none =>
    if ty == "ai_vision_tagging" then .ok ()
    else .error (quoted "prompts" ++ " is required")

/-- One tags item: an object with required bounded name and description
strings (with the no-HTML-tags pattern in the secured variant) and no other
keys. -/
def checkTagItem (strict : Bool) (v : JVal) : Option String :=
  match v with
  | .obj fs =>
    (match jget fs "name" with
     | none => some (quoted "name" ++ " is required")
     | some (.str n) =>
       if n.length > 100 then
         some (quoted "name" ++ " length must be less than or equal to 100 characters long")
       else if strict && !(n.toList.all (fun c => !(c == '<') && !(c == '>'))) then
         some (quoted "name" ++ " with value fails to match the no HTML tags pattern")
       else none
     | some _ => some (quoted "name" ++ " must be a string"))
    <|>
    (match jget fs "description" with
     | none => some (quoted "description" ++ " is required")
     | some (.str d) =>
       if d.length > 500 then
         some (quoted "description" ++ " length must be less than or equal to 500 characters long")
       else if strict && !(d.toList.all (fun c => !(c == '<') && !(c == '>'))) then
         some (quoted "description" ++ " with value fails to match the no HTML tags pattern")
       else none
     | some _ => some (quoted "description" ++ " must be a string"))
    <|>
    ((fs.find? (fun p => !(p.1 == "name") && !(p.1 == "description"))).map
      (fun p => quoted p.1 ++ " is not allowed"))
  | _ => some (quoted "tags" ++ " entry must be of type object")

/-- The tags rules: when present, an array of at most 20 tag objects;
required exactly when the analysis type is tagging.  No minimum length is
imposed. -/
def checkTags (strict : Bool) (b : Body) (ty : String) : Except String Unit :=
  match jget b "tags" with
  | some (.arr xs) =>
    match xs.findSome? (checkTagItem strict) with
    | some e => .error e
    | none =>
      if xs.length > 20 then
        .error (quoted "tags" ++ " must contain less than or equal to 20 items")
      else .ok ()
  | some _ => .error (quoted "tags" ++ " must be an array")
  | none =>
    if ty == "ai_vision_tagging" then .error (quoted "tags" ++ " is required")
    else .ok ()

/-- The multi_label rule: optional boolean. -/
def checkMultiLabel (b : Body) : Except String Unit :=
  match jget b "multi_label" with
  | none => .ok ()
  | some (.bool _) => .ok ()
  | some _ => .error (quoted "multi_label" ++ " must be a boolean")

/-- The five keys the schema declares. -/
def allowedKeys : List String :=
  ["imageUrl", "analysis_type", "prompts", "tags", "multi_label"]

/-- Joi's default object behavior: any key outside the schema fails. -/
def checkUnknownKeys (b : Body) : Except String Unit :=
  match b.find? (fun p => !(allowedKeys.contains p.1)) with
  | some p => .error (quoted p.1 ++ " is not allowed")
  | none => .ok ()

/-- schema.validate with abortEarly: the first violation is the single
reported error; on success the validated value is the body itself. -/
def validateAnalyze (strict : Bool) (b : Body) : Except String Body := do
  checkImageUrl strict b
  let ty ← checkAnalysisType b
  checkPrompts b ty
  checkTags strict b ty
  checkMultiLabel b
  checkUnknownKeys b
  pure b

/-- The validateInput(analyzeSchema) middleware of app.js lines 195-209
composed with the route handler it guards, exactly as
app.post(path, validateInput(analyzeSchema), handler) wires them: a
validation error answers 400 immediately and the handler never runs. -/
def securedRoute (handler : Body → Outcome) (b : Body) : Outcome :=
  match validateAnalyze true b with
  | .error m =>
    .respond ⟨400, { error := some "Validation Error", message := some m,
                     code := some "INVALID_INPUT" }⟩
  | .ok v => handler v

/-! ## Secured /batch-analyze handler (app.js lines 322-361)

The route body destructures the camelCase fields analysisType, analysisData
and multiLabel from the validated body and switches on analysisType.  The
guarding schema, however, is the snake_case analyzeSchema above. -/

/-- The global Express error handler's generic answer (app.js lines
488-492), reached when a route handler throws synchronously. -/
def serverErrorResponse : Response :=
  ⟨500, { error := some "Internal Server Error",
          message := some "An unexpected error occurred",
          code := some "SERVER_ERROR" }⟩

/-- The tag.name / tag.description projection of the serverless map
callbacks: each element is reduced to an object with whatever those two
member accesses yield, undefined-valued keys being dropped at
serialization. -/
def tagFmtJ (t : JVal) : JVal :=
  .obj (jsonField "name" (jprop t "name") ++
        jsonField "description" (jprop t "description"))

/-- The secured /batch-analyze route handler body (app.js lines 323-361),
run on the validated body.  The switch on the destructured analysisType
matches string cases; a validated body never carries that key, so the
default branch answers 400 INVALID_ANALYSIS_TYPE.  A non-array analysisData
in the tagging branch would make analysisData.map throw, which Express
turns into the global 500 handler. -/
def securedBatchHandlerRaw (v : Body) : Outcome :=
  let imageUrl := jget v "imageUrl"
  let analysisType := jget v "analysisType"
  let analysisData := jget v "analysisData"
  let multiLabel := jget v "multiLabel"
  if isStrVal analysisType "ai_vision_general" then
    .upstream "ai_vision_general"
      (.obj (("source", .obj (jsonField "uri" imageUrl)) ::
             jsonField "prompts" analysisData))
  else if isStrVal analysisType "ai_vision_moderation" then
    .upstream "ai_vision_moderation"
      (.obj (("source", .obj (jsonField "uri" imageUrl)) ::
             jsonField "rejection_questions" analysisData))
  else if isStrVal analysisType "ai_vision_tagging" then
    match analysisData with
    | some (.arr xs) =>
      .upstream "ai_vision_tagging"
        (.obj (("source", .obj (jsonField "uri" imageUrl)) ::
               ("tag_definitions", .arr (xs.map tagFmtJ)) ::
               (match multiLabel with
                | some x => [("multi_label", x)]
                | none => [])))
    | _ => .respond serverErrorResponse
  else
    .respond ⟨400, { error := some "Invalid analysis type",
                     code := some "INVALID_ANALYSIS_TYPE" }⟩

/-- The full secured POST /batch-analyze route: the snake_case schema
middleware followed by the camelCase handler. -/
def securedBatchRoute (b : Body) : Outcome :=
  securedRoute securedBatchHandlerRaw b

/-! ## Serverless function handlers (api/analyze.js, api/batch-analyze.js,
the health handlers and the legacy analyze-image handler) -/

/-- The 405 body every serverless handler uses for a method mismatch. -/
def methodNotAllowedBody : RespBody := { error := some "Method not allowed" }

/-- The 500 answer of the serverless analyze catch block when body
processing throws (error.code undefined, no provider response; the details
field carries the thrown TypeError's message, modelled as an abstract
text). -/
def analyzeCaughtThrowResponse : Response :=
  ⟨500, { error := some "Analysis failed",
          message := some "Unable to process image analysis. Please check the image URL and try again.",
          details := some "TypeError" }⟩

/-- Same for the serverless batch-analyze catch block. -/
def batchCaughtThrowResponse : Response :=
  ⟨500, { error := some "Analysis failed",
          message := some "Unable to process batch analysis. Please check the data and try again.",
          details := some "TypeError" }⟩

/-- The serverless /analyze handler (api/analyze.js): method gate, truthy
presence check on imageUrl and analysis_type, then the switch with the
prompts-or-empty-array and tags-or-empty-array defaults. -/
def serverlessAnalyzeHandler (method : String) (b : Body) : Outcome :=
  if !(method == "POST") then .respond ⟨405, methodNotAllowedBody⟩
  else
    let imageUrl := jget b "imageUrl"
    let analysis_ty := jget b "analysis_type"
    let prompts := jget b "prompts"
    let tags := jget b "tags"
    let multi_label := jget b "multi_label"
    if !(truthy imageUrl) || !(truthy analysis_ty) then
      .respond ⟨400, { error := some "Missing required parameters",
                       message := some "imageUrl and analysis_type are required" }⟩
    else if isStrVal analysis_ty "ai_vision_general" then
      .upstream "ai_vision_general"
        (.obj (("source", .obj (jsonField "uri" imageUrl)) ::
               [("prompts", jsOr prompts (.arr []))]))
    else if isStrVal analysis_ty "ai_vision_moderation" then
      .upstream "ai_vision_moderation"
        (.obj (("source", .obj (jsonField "uri" imageUrl)) ::
               [("rejection_questions", jsOr prompts (.arr []))]))
    else if isStrVal analysis_ty "ai_vision_tagging" then
      match jsOr tags (.arr []) with
      | .arr xs =>
        .upstream "ai_vision_tagging"
          (.obj (("source", .obj (jsonField "uri" imageUrl)) ::
                 ("tag_definitions", .arr (xs.map tagFmtJ)) ::
                 (match multi_label with
                  | some x => [("multi_label", x)]
                  | none => [])))
      | _ => .respond analyzeCaughtThrowResponse
    else
      .respond ⟨400, { error := some "Invalid analysis type",
                       message := some "analysis_type must be ai_vision_general, ai_vision_moderation, or ai_vision_tagging" }⟩

/-- The serverless /batch-analyze handler (api/batch-analyze.js): method
gate, truthy presence check on the three camelCase fields, then the switch
passing analysisData straight through. -/
def serverlessBatchHandler (method : String) (b : Body) : Outcome :=
  if !(method == "POST") then .respond ⟨405, methodNotAllowedBody⟩
  else
    let imageUrl := jget b "imageUrl"
    let analysisType := jget b "analysisType"
    let analysisData := jget b "analysisData"
    let multiLabel := jget b "multiLabel"
    if !(truthy imageUrl) || !(truthy analysisType) || !(truthy analysisData) then
      .respond ⟨400, { error := some "Missing required parameters",
                       message := some "imageUrl, analysisType, and analysisData are required" }⟩
    else if isStrVal analysisType "ai_vision_general" then
      .upstream "ai_vision_general"
        (.obj (("source", .obj (jsonField "uri" imageUrl)) ::
               jsonField "prompts" analysisData))
    else if isStrVal analysisType "ai_vision_moderation" then
      .upstream "ai_vision_moderation"
        (.obj (("source", .obj (jsonField "uri" imageUrl)) ::
               jsonField "rejection_questions" analysisData))
    else if isStrVal analysisType "ai_vision_tagging" then
      match analysisData with
      | some (.arr xs) =>
        .upstream "ai_vision_tagging"
          (.obj (("source", .obj (jsonField "uri" imageUrl)) ::
                 ("tag_definitions", .arr (xs.map tagFmtJ)) ::
                 (match multiLabel with
                  | some x => [("multi_label", x)]
                  | none => [])))
      | _ => .respond batchCaughtThrowResponse
    else
      .respond ⟨400, { error := some "Invalid analysis type",
                       message := some "analysisType must be ai_vision_general, ai_vision_moderation, or ai_vision_tagging" }⟩

/-- The plain serverless health handler: non-GET answers 405, otherwise 200
with the health JSON (its status/timestamp/version body is abstracted). -/
def healthHandler (method : String) : Response :=
  if !(method == "GET") then ⟨405, methodNotAllowedBody⟩
  else ⟨200, {}⟩

/-- The CORS-enabled serverless health handler variant: it first sets the
CORS response headers (not modelled in the response value), answers
preflight OPTIONS requests with an empty 200, then applies the same method
gate as the plain handler. -/
def healthCorsHandler (method : String) : Response :=
  if method == "OPTIONS" then ⟨200, {}⟩
  else if !(method == "GET") then ⟨405, methodNotAllowedBody⟩
  else ⟨200, {}⟩

/-! ## Legacy Key Resolver (app.js lines 414-436 and the serverless
analyze-image handler) -/

/-- The closed three-entry table switching on appKey, shared verbatim by
both variants: each known key yields its fixed analysis type and canned
parameters. -/
def legacyResolve (appKey : String) : Option (String × List (String × JVal)) :=
  if appKey == "fGr3Ase" then
    some ("ai_vision_tagging",
      [("tag_definitions", .arr
        [.obj [("name", .str "prompt1"), ("description", .str "Tag for prompt1")],
         .obj [("name", .str "prompt2"), ("description", .str "Tag for prompt2")]])])
  else if appKey == "88330fgvv" then
    some ("ai_vision_moderation",
      [("rejection_questions", .arr [.str "is it safe?"])])
  else if appKey == "gie3faavv3r1" then
    some ("ai_vision_general",
      [("prompts", .arr [.str "write a very long song about this image"])])
  else none

/-- Truthiness of an optional query-string parameter. -/
def strTruthy : Option String → Bool
  | none => false
  | some s => !(s == "")

/-- The secured GET /analyze-image route (app.js lines 384-441): parameter
presence, URL validation (the URL constructor plus the http/https regex,
abstracted as isValidHttpUri), then the appKey switch; unknown keys answer
400 with the machine-readable INVALID_APP_KEY code. -/
def securedLegacyRoute (imageUrl appKey : Option String) : Outcome :=
  if !(strTruthy imageUrl) || !(strTruthy appKey) then
    .respond ⟨400, { error := some "Missing required parameters",
                     message := some "Both imageUrl and appKey are required",
                     code := some "MISSING_PARAMETERS" }⟩
  else
    let u := imageUrl.getD ""
    let k := appKey.getD ""
    if !(isValidHttpUri u) then
      .respond ⟨400, { error := some "Invalid image URL",
                       code := some "INVALID_URL" }⟩
    else
      match legacyResolve k with
      | some (ty, params) =>
        .upstream ty (.obj (("source", .obj [("uri", .str u)]) :: params))
      | none =>
        .respond ⟨400, { error := some "Invalid app key",
                         code := some "INVALID_APP_KEY" }⟩

/-- The serverless analyze-image handler: method gate first, then the same
steps; its error bodies carry human-readable messages and no code field. -/
def serverlessLegacyHandler (method : String) (imageUrl appKey : Option String) : Outcome :=
  if !(method == "GET") then .respond ⟨405, methodNotAllowedBody⟩
  else if !(strTruthy imageUrl) || !(strTruthy appKey) then
    .respond ⟨400, { error := some "Missing required parameters",
                     message := some "Both imageUrl and appKey are required" }⟩
  else
    let u := imageUrl.getD ""
    let k := appKey.getD ""
    if !(isValidHttpUri u) then
      .respond ⟨400, { error := some "Invalid image URL",
                       message := some "Please provide a valid HTTP/HTTPS image URL" }⟩
    else
      match legacyResolve k with
      | some (ty, params) =>
        .upstream ty (.obj (("source", .obj [("uri", .str u)]) :: params))
      | none =>
        .respond ⟨400, { error := some "Invalid app key",
                         message := some "The provided appKey is not recognized" }⟩

/-! ## Auth and Rate Gate (app.js lines 86-168)

Express runs middleware in registration order: the rate limiter is mounted
on the three API paths at lines 105-107, and authenticateApiKey is mounted
on the whole app at line 168, so for those paths the limiter runs first.
The limiter's windowed counter is abstracted to the boolean fact that this
request exceeds the configured maximum; its response is the configured 429
message object.  parseInt on the X-Timestamp header is abstracted to a
value that is either NaN or an integer. -/

/-- Result of parseInt on the X-Timestamp header. -/
inductive TsVal where
  | nan
  | val (t : Int)

/-- The API key format regex of app.js line 128: exactly 64 hex characters,
case-insensitive. -/
def isHex64 (s : String) : Bool :=
  s.length == 64 &&
  s.toList.all (fun c => c.isDigit || ('a' ≤ c && c ≤ 'f') || ('A' ≤ c && c ≤ 'F'))

/-- The limiter's configured response body (app.js lines 91-94). -/
def rateLimitResponse : Response :=
  ⟨429, { error := some "Too many requests",
          message := some "Rate limit exceeded. Please try again later." }⟩

/-- 401 for a missing X-API-Key header. -/
def missingKeyResponse : Response :=
  ⟨401, { error := some "Unauthorized",
          message := some "API key is required. Please include X-API-Key header.",
          code := some "MISSING_API_KEY" }⟩

/-- 401 for a key that is not 64 hex characters. -/
def badFormatResponse : Response :=
  ⟨401, { error := some "Unauthorized",
          message := some "Invalid API key format",
          code := some "INVALID_API_KEY_FORMAT" }⟩

/-- 401 for a well-formed key outside the configured set. -/
def invalidKeyResponse : Response :=
  ⟨401, { error := some "Unauthorized",
          message := some "Invalid API key",
          code := some "INVALID_API_KEY" }⟩

/-- 400 for a supplied X-Timestamp that is NaN, too old or in the future. -/
def invalidTimestampResponse : Response :=
  ⟨400, { error := some "Bad Request",
          message := some "Request timestamp is too old or invalid",
          code := some "INVALID_TIMESTAMP" }⟩

/-- The authenticateApiKey middleware (app.js lines 110-165): some response
short-circuits the request, none passes it on.  The membership check is
skipped when no keys are configured; the timestamp check runs only when the
header is present, against the five-minute window. -/
def authenticateApiKey (path : String) (apiKey : Option String)
    (apiKeys : List String) (xTimestamp : Option TsVal) (now : Int) :
    Option Response :=
  if path == "/health" || path == "/" then none
  else match apiKey with
  | none => some missingKeyResponse
  | some key =>
    if !(isHex64 key) then some badFormatResponse
    else if !(apiKeys.isEmpty) && !(apiKeys.contains key) then
      some invalidKeyResponse
    else match xTimestamp with
    | some .nan => some invalidTimestampResponse
    | some (.val t) =>
      if now - t > 5 * 60 * 1000 ∨ t > now then some invalidTimestampResponse
      else none
    | none => none

/-- The combined gate as Express dispatches it: for the three API paths the
mounted rate limiter runs before authenticateApiKey; every other path only
meets authenticateApiKey (which itself lets /health and / through). -/
def securedGate (path : String) (rateExceeded : Bool) (apiKey : Option String)
    (apiKeys : List String) (xTimestamp : Option TsVal) (now : Int) :
    Option Response :=
  if (path == "/analyze" || path == "/batch-analyze" || path == "/analyze-image")
      && rateExceeded then
    some rateLimitResponse
  else authenticateApiKey path apiKey apiKeys xTimestamp now

/-! ## Upstream error classification (the catch blocks of every route)

An axios failure carries an optional error.code (ECONNABORTED for a
timeout abort), an optional provider response body (present exactly when
the provider answered at all) and a transport message. -/

/-- An axios error as the catch blocks inspect it. -/
structure UpstreamError where
  code : Option String
  responseData : Option String
  message : String

/-- error.response ? error.response.data : error.message, the diagnostic
the serverless handlers attach. -/
def upstreamDetail (e : UpstreamError) : String :=
  match e.responseData with
  | some d => d
  | none => e.message

/-- The serverless /analyze catch block (api/analyze.js lines 79-94). -/
def serverlessAnalyzeCatch (e : UpstreamError) : Response :=
  if e.code = some "ECONNABORTED" then
    ⟨408, { error := some "Request Timeout",
            message := some "Analysis request timed out. Please try again." }⟩
  else
    ⟨500, { error := some "Analysis failed",
            message := some "Unable to process image analysis. Please check the image URL and try again.",
            details := some (upstreamDetail e) }⟩

/-- The serverless /batch-analyze catch block. -/
def serverlessBatchCatch (e : UpstreamError) : Response :=
  if e.code = some "ECONNABORTED" then
    ⟨408, { error := some "Request Timeout",
            message := some "Analysis request timed out. Please try again." }⟩
  else
    ⟨500, { error := some "Analysis failed",
            message := some "Unable to process batch analysis. Please check the data and try again.",
            details := some (upstreamDetail e) }⟩

/-- The serverless analyze-image catch block. -/
def serverlessLegacyCatch (e : UpstreamError) : Response :=
  if e.code = some "ECONNABORTED" then
    ⟨408, { error := some "Request Timeout",
            message := some "Analysis request timed out. Please try again." }⟩
  else
    ⟨500, { error := some "Analysis failed",
            message := some "Unable to process legacy analysis. Please check the parameters and try again.",
            details := some (upstreamDetail e) }⟩

/-- The secured /analyze catch block (app.js lines 303-318): the timeout
branch is present, but the 500 answer carries no provider detail, only the
ANALYSIS_ERROR code. -/
def securedAnalyzeCatch (e : UpstreamError) : Response :=
  if e.code = some "ECONNABORTED" then
    ⟨408, { error := some "Request Timeout",
            message := some "Analysis request timed out. Please try again." }⟩
  else
    ⟨500, { error := some "Analysis failed",
            message := some "Unable to process image analysis. Please check the image URL and try again.",
            code := some "ANALYSIS_ERROR" }⟩

/-- The secured /batch-analyze catch block (app.js lines 373-380): no
timeout branch at all; every failure is answered 500 with the transport
message as details. -/
def securedBatchCatch (e : UpstreamError) : Response :=
  ⟨500, { error := some "Analysis failed",
          details := some e.message,
          code := some "BATCH_ANALYSIS_ERROR" }⟩

/-- The secured analyze-image catch block (app.js lines 456-463): likewise
no timeout branch. -/
def securedLegacyCatch (e : UpstreamError) : Response :=
  ⟨500, { error := some "Analysis failed",
          details := some e.message,
          code := some "LEGACY_ANALYSIS_ERROR" }⟩

/-- The aws-serverless-express variant's /analyze catch block: likewise no
timeout branch; every failure is answered 500 ANALYSIS_ERROR. -/
def serverlessExpressAnalyzeCatch (_e : UpstreamError) : Response :=
  ⟨500, { error := some "Analysis failed",
          message := some "Unable to process image analysis. Please check the image URL and try again.",
          code := some "ANALYSIS_ERROR" }⟩

/-! ## Claim theorems for the serverless handlers -/

/-- Claim C9: in the serverless /analyze handler, any POST body with a
truthy imageUrl and a valid analysis_type proceeds to the upstream call;
a missing prompts field is silently replaced by an empty array (an empty
tag_definitions array for tagging), and no URL-scheme, array-length,
string-length or markup check is applied: the conclusion holds for every
imageUrl string and every prompts array whatsoever. -/
theorem serverless_analyze_silently_defaults_empty :
    ∀ u : String, (u == "") = false →
      (serverlessAnalyzeHandler "POST"
          [("imageUrl", .str u), ("analysis_type", .str "ai_vision_general")] =
        .upstream "ai_vision_general"
          (.obj [("source", .obj [("uri", .str u)]), ("prompts", .arr [])])) ∧
      (serverlessAnalyzeHandler "POST"
          [("imageUrl", .str u), ("analysis_type", .str "ai_vision_moderation")] =
        .upstream "ai_vision_moderation"
          (.obj [("source", .obj [("uri", .str u)]), ("rejection_questions", .arr [])])) ∧
      (serverlessAnalyzeHandler "POST"
          [("imageUrl", .str u), ("analysis_type", .str "ai_vision_tagging")] =
        .upstream "ai_vision_tagging"
          (.obj [("source", .obj [("uri", .str u)]), ("tag_definitions", .arr [])])) ∧
      (∀ ps : List JVal,
        serverlessAnalyzeHandler "POST"
            [("imageUrl", .str u), ("analysis_type", .str "ai_vision_general"),
             ("prompts", .arr ps)] =
          .upstream "ai_vision_general"
            (.obj [("source", .obj [("uri", .str u)]), ("prompts", .arr ps)])) := by
  intro u h
  refine ⟨?_, ?_, ?_, fun ps => ?_⟩ <;>
    simp [serverlessAnalyzeHandler, jget, List.find?, truthy, isStrVal, jsOr,
          jsonField, h]

/-- Witness for C9 at a concrete body. -/
theorem serverless_analyze_silently_defaults_empty_witness :
    serverlessAnalyzeHandler "POST"
        [("imageUrl", .str "not-even-a-url"), ("analysis_type", .str "ai_vision_general")] =
      .upstream "ai_vision_general"
        (.obj [("source", .obj [("uri", .str "not-even-a-url")]), ("prompts", .arr [])]) :=
  (serverless_analyze_silently_defaults_empty "not-even-a-url" (by decide)).1

/-- Claim C10, counterexample: the CORS-enabled serverless health handler
answers the non-GET method OPTIONS with status 200, not with the claimed
405 Method-not-allowed response. -/
theorem health_cors_options_not_405 :
    healthCorsHandler "OPTIONS" = ⟨200, {}⟩ ∧ (200 : Nat) ≠ 405 :=
  ⟨rfl, by decide⟩

/-- Claim C10 as amended: every serverless handler answers a
method-mismatched request with 405 and body error Method not allowed,
before reading any request data and without an outbound call, except that
the CORS-enabled health handler variant first sets CORS headers and answers
an OPTIONS preflight with an empty 200; its other non-GET methods still get
405. -/
theorem serverless_method_gates :
    (∀ (m : String) (b : Body), (m == "POST") = false →
      serverlessAnalyzeHandler m b = .respond ⟨405, methodNotAllowedBody⟩) ∧
    (∀ (m : String) (b : Body), (m == "POST") = false →
      serverlessBatchHandler m b = .respond ⟨405, methodNotAllowedBody⟩) ∧
    (∀ m : String, (m == "GET") = false →
      healthHandler m = ⟨405, methodNotAllowedBody⟩) ∧
    (∀ (m : String) (iu ak : Option String), (m == "GET") = false →
      serverlessLegacyHandler m iu ak = .respond ⟨405, methodNotAllowedBody⟩) ∧
    (∀ m : String, (m == "OPTIONS") = false → (m == "GET") = false →
      healthCorsHandler m = ⟨405, methodNotAllowedBody⟩) ∧
    healthCorsHandler "OPTIONS" = ⟨200, {}⟩ := by
  refine ⟨fun m b h => ?_, fun m b h => ?_, fun m h => ?_, fun m iu ak h => ?_,
          fun m h1 h2 => ?_, rfl⟩ <;>
    simp [serverlessAnalyzeHandler, serverlessBatchHandler, healthHandler,
          serverlessLegacyHandler, healthCorsHandler, *]

/-- Witness for the amended C10 at concrete methods. -/
theorem serverless_method_gates_witness :
    serverlessAnalyzeHandler "PUT" [] = .respond ⟨405, methodNotAllowedBody⟩ ∧
    serverlessBatchHandler "GET" [] = .respond ⟨405, methodNotAllowedBody⟩ ∧
    healthHandler "POST" = ⟨405, methodNotAllowedBody⟩ ∧
    serverlessLegacyHandler "POST" (some "https://x/img.jpg") (some "fGr3Ase") =
      .respond ⟨405, methodNotAllowedBody⟩ ∧
    healthCorsHandler "DELETE" = ⟨405, methodNotAllowedBody⟩ :=
  ⟨serverless_method_gates.1 "PUT" [] (by decide),
   serverless_method_gates.2.1 "GET" [] (by decide),
   serverless_method_gates.2.2.1 "POST" (by decide),
   serverless_method_gates.2.2.2.1 "POST" _ _ (by decide),
   serverless_method_gates.2.2.2.2.1 "DELETE" (by decide) (by decide)⟩

/-! ## Claim theorems for upstream error handling -/

/-- Claim C7, counterexample: on the secured /batch-analyze route a
connection abort (error code ECONNABORTED) is answered with status 500, not
with the claimed distinct 408 timeout response. -/
theorem secured_batch_timeout_answered_500 :
    securedBatchCatch ⟨some "ECONNABORTED", none, "timeout of 30000ms exceeded"⟩ =
      ⟨500, { error := some "Analysis failed",
              details := some "timeout of 30000ms exceeded",
              code := some "BATCH_ANALYSIS_ERROR" }⟩ ∧
    (500 : Nat) ≠ 408 :=
  ⟨rfl, by decide⟩

/-- Claim C7 as amended: the timeout-to-408 and other-failure-to-500-with-
provider-detail classification holds on the three serverless handlers; the
secured /analyze answers timeouts 408 but its 500 carries no provider
detail, only the ANALYSIS_ERROR code; the secured /batch-analyze and
/analyze-image routes (and the aws-serverless-express /analyze route)
answer every upstream failure, timeout aborts included, with 500, the
former two attaching the transport message as details. -/
theorem upstream_error_classification :
    (∀ e : UpstreamError, e.code = some "ECONNABORTED" →
      (serverlessAnalyzeCatch e).status = 408 ∧
      (serverlessBatchCatch e).status = 408 ∧
      (serverlessLegacyCatch e).status = 408 ∧
      (securedAnalyzeCatch e).status = 408) ∧
    (∀ e : UpstreamError, e.code ≠ some "ECONNABORTED" →
      serverlessAnalyzeCatch e =
        ⟨500, { error := some "Analysis failed",
                message := some "Unable to process image analysis. Please check the image URL and try again.",
                details := some (upstreamDetail e) }⟩ ∧
      serverlessBatchCatch e =
        ⟨500, { error := some "Analysis failed",
                message := some "Unable to process batch analysis. Please check the data and try again.",
                details := some (upstreamDetail e) }⟩ ∧
      serverlessLegacyCatch e =
        ⟨500, { error := some "Analysis failed",
                message := some "Unable to process legacy analysis. Please check the parameters and try again.",
                details := some (upstreamDetail e) }⟩ ∧
      securedAnalyzeCatch e =
        ⟨500, { error := some "Analysis failed",
                message := some "Unable to process image analysis. Please check the image URL and try again.",
                code := some "ANALYSIS_ERROR" }⟩) ∧
    (∀ e : UpstreamError, ∀ d : String, e.responseData = some d →
      e.code ≠ some "ECONNABORTED" →
      (serverlessAnalyzeCatch e).body.details = some d) ∧
    (∀ e : UpstreamError,
      securedBatchCatch e =
        ⟨500, { error := some "Analysis failed", details := some e.message,
                code := some "BATCH_ANALYSIS_ERROR" }⟩ ∧
      securedLegacyCatch e =
        ⟨500, { error := some "Analysis failed", details := some e.message,
                code := some "LEGACY_ANALYSIS_ERROR" }⟩ ∧
      (serverlessExpressAnalyzeCatch e).status = 500) := by
  refine ⟨fun e h => ?_, fun e h => ?_, fun e d hd h => ?_, fun e => ?_⟩ <;>
    simp [serverlessAnalyzeCatch, serverlessBatchCatch, serverlessLegacyCatch,
          securedAnalyzeCatch, securedBatchCatch, securedLegacyCatch,
          serverlessExpressAnalyzeCatch, upstreamDetail, *]

/-- Witness for the amended C7 at concrete upstream errors. -/
theorem upstream_error_classification_witness :
    (serverlessAnalyzeCatch ⟨some "ECONNABORTED", none, "timeout of 30000ms exceeded"⟩).status = 408 ∧
    serverlessBatchCatch ⟨none, some "provider rejected the image", "Request failed with status code 400"⟩ =
      ⟨500, { error := some "Analysis failed",
              message := some "Unable to process batch analysis. Please check the data and try again.",
              details := some (upstreamDetail ⟨none, some "provider rejected the image", "Request failed with status code 400"⟩) }⟩ ∧
    (serverlessAnalyzeCatch ⟨none, some "provider rejected the image", "Request failed with status code 400"⟩).body.details =
      some "provider rejected the image" :=
  ⟨(upstream_error_classification.1 _ rfl).1,
   ((upstream_error_classification.2.1 _ (by simp)).2.1),
   (upstream_error_classification.2.2.1 _ _ rfl (by simp))⟩

/-! ## Claim theorems for the Legacy Key Resolver -/

/-- Claim C8, counterexample: the serverless analyze-image handler answers
the unrecognized appKey zzz with 400 and no outbound call, but its body
carries no code field at all, hence not the claimed code INVALID_APP_KEY. -/
theorem serverless_legacy_unknown_key_has_no_code :
    serverlessLegacyHandler "GET" (some "https://x/img.jpg") (some "zzz") =
      .respond ⟨400, { error := some "Invalid app key",
                       message := some "The provided appKey is not recognized" }⟩ ∧
    ({ error := some "Invalid app key",
       message := some "The provided appKey is not recognized" } : RespBody).code = none ∧
    (none : Option String) ≠ some "INVALID_APP_KEY" :=
  ⟨rfl, rfl, by decide⟩

/-- Claim C8 as amended: the resolver table has exactly the three entries,
the key fGr3Ase always resolves to the tagging configuration with its two
fixed tag definitions, and an unrecognized appKey is answered 400 without
any outbound call in both variants; the machine-readable INVALID_APP_KEY
code appears only in the secured variant, while the serverless variant
answers error Invalid-app-key with a human-readable message and no code
field. -/
theorem legacy_resolver_table :
    (∀ k : String, (legacyResolve k).isSome =
      (k == "fGr3Ase" || k == "88330fgvv" || k == "gie3faavv3r1")) ∧
    legacyResolve "fGr3Ase" =
      some ("ai_vision_tagging",
        [("tag_definitions", .arr
          [.obj [("name", .str "prompt1"), ("description", .str "Tag for prompt1")],
           .obj [("name", .str "prompt2"), ("description", .str "Tag for prompt2")]])]) ∧
    (∀ u k : String, isValidHttpUri u = true → (u == "") = false →
      (k == "") = false → legacyResolve k = none →
      securedLegacyRoute (some u) (some k) =
        .respond ⟨400, { error := some "Invalid app key",
                         code := some "INVALID_APP_KEY" }⟩) ∧
    (∀ u k : String, isValidHttpUri u = true → (u == "") = false →
      (k == "") = false → legacyResolve k = none →
      serverlessLegacyHandler "GET" (some u) (some k) =
        .respond ⟨400, { error := some "Invalid app key",
                         message := some "The provided appKey is not recognized" }⟩) := by
  refine ⟨fun k => ?_, rfl, fun u k h hu hk hr => ?_, fun u k h hu hk hr => ?_⟩
  · cases h1 : (k == "fGr3Ase") <;> cases h2 : (k == "88330fgvv") <;>
      cases h3 : (k == "gie3faavv3r1") <;> simp [legacyResolve, h1, h2, h3]
  · simp [securedLegacyRoute, strTruthy, hu, hk, h, hr]
  · simp [serverlessLegacyHandler, strTruthy, hu, hk, h, hr]

/-- Witness for the amended C8 at a concrete unknown key. -/
theorem legacy_resolver_table_witness :
    isValidHttpUri "https://x/img.jpg" = true ∧
    legacyResolve "no-such-key" = none ∧
    securedLegacyRoute (some "https://x/img.jpg") (some "no-such-key") =
      .respond ⟨400, { error := some "Invalid app key",
                       code := some "INVALID_APP_KEY" }⟩ ∧
    serverlessLegacyHandler "GET" (some "https://x/img.jpg") (some "no-such-key") =
      .respond ⟨400, { error := some "Invalid app key",
                       message := some "The provided appKey is not recognized" }⟩ :=
  ⟨by decide, rfl,
   legacy_resolver_table.2.2.1 _ _ (by decide) (by decide) (by decide) rfl,
   legacy_resolver_table.2.2.2 _ _ (by decide) (by decide) (by decide) rfl⟩

/-! ## Claim theorems for the Auth and Rate Gate -/

/-- Claim C5, counterexample: a request to /analyze that exceeds the rate
limit and carries no API key at all is answered with the 429 rate-limit
response, not with the 401 MISSING_API_KEY response the claimed check
order would produce: the limiter is mounted before the key checks. -/
theorem rate_limit_precedes_key_checks :
    securedGate "/analyze" true none [] none 0 = some rateLimitResponse ∧
    rateLimitResponse.status = 429 ∧
    missingKeyResponse.status = 401 ∧
    rateLimitResponse ≠ missingKeyResponse :=
  ⟨rfl, rfl, rfl, by decide⟩

/-- Claim C5 as amended: for the three API routes the rate limiter runs
first (Express registers it before authenticateApiKey), so an over-limit
request is answered 429 even when its key would also fail; under the limit
the key checks run in the order presence, format, membership, then
timestamp freshness, each short-circuiting with its distinct code and
status (401 for the three key failures, 400 for a bad timestamp); /health
and / bypass the gate entirely. -/
theorem gate_check_order :
    (∀ (key : Option String) (keys : List String) (ts : Option TsVal) (now : Int),
      securedGate "/analyze" true key keys ts now = some rateLimitResponse ∧
      securedGate "/batch-analyze" true key keys ts now = some rateLimitResponse ∧
      securedGate "/analyze-image" true key keys ts now = some rateLimitResponse) ∧
    (∀ (keys : List String) (ts : Option TsVal) (now : Int),
      securedGate "/analyze" false none keys ts now = some missingKeyResponse) ∧
    (∀ (k : String) (keys : List String) (ts : Option TsVal) (now : Int),
      isHex64 k = false →
      securedGate "/analyze" false (some k) keys ts now = some badFormatResponse) ∧
    (∀ (k : String) (keys : List String) (ts : Option TsVal) (now : Int),
      isHex64 k = true → keys ≠ [] → k ∉ keys →
      securedGate "/analyze" false (some k) keys ts now = some invalidKeyResponse) ∧
    (∀ (k : String) (keys : List String) (now : Int),
      isHex64 k = true → k ∈ keys →
      securedGate "/analyze" false (some k) keys (some .nan) now =
        some invalidTimestampResponse) ∧
    (∀ (k : String) (keys : List String) (t now : Int),
      isHex64 k = true → k ∈ keys →
      (now - t > 5 * 60 * 1000 ∨ t > now) →
      securedGate "/analyze" false (some k) keys (some (.val t)) now =
        some invalidTimestampResponse) ∧
    (∀ (k : String) (keys : List String) (t now : Int),
      isHex64 k = true → k ∈ keys →
      ¬(now - t > 5 * 60 * 1000 ∨ t > now) →
      securedGate "/analyze" false (some k) keys (some (.val t)) now = none) ∧
    (∀ (rl : Bool) (key : Option String) (keys : List String) (ts : Option TsVal)
        (now : Int),
      securedGate "/health" rl key keys ts now = none ∧
      securedGate "/" rl key keys ts now = none) := by
  refine ⟨fun key keys ts now => ?_, fun keys ts now => ?_,
          fun k keys ts now h => ?_, fun k keys ts now h he hc => ?_,
          fun k keys now h hc => ?_, fun k keys t now h hc hbad => ?_,
          fun k keys t now h hc hok => ?_, fun rl key keys ts now => ?_⟩ <;>
    simp [securedGate, authenticateApiKey, *] <;>
    omega

/-- Witness for the amended C5 at concrete gate inputs (the configured key
is 64 hex characters). -/
theorem gate_check_order_witness :
    securedGate "/analyze" true none [] none 0 = some rateLimitResponse ∧
    securedGate "/analyze" false none [] none 0 = some missingKeyResponse ∧
    isHex64 "short" = false ∧
    securedGate "/analyze" false (some "short") [] none 0 = some badFormatResponse ∧
    isHex64 "0123456789abcdef0123456789abcdef0123456789abcdef0123456789abcdef" = true ∧
    securedGate "/analyze" false
        (some "0123456789abcdef0123456789abcdef0123456789abcdef0123456789abcdef")
        ["aaaa456789abcdef0123456789abcdef0123456789abcdef0123456789abcdef"] none 0 =
      some invalidKeyResponse ∧
    securedGate "/analyze" false
        (some "0123456789abcdef0123456789abcdef0123456789abcdef0123456789abcdef")
        ["0123456789abcdef0123456789abcdef0123456789abcdef0123456789abcdef"]
        (some (.val 0)) 10000000 =
      some invalidTimestampResponse ∧
    securedGate "/analyze" false
        (some "0123456789abcdef0123456789abcdef0123456789abcdef0123456789abcdef")
        ["0123456789abcdef0123456789abcdef0123456789abcdef0123456789abcdef"]
        (some (.val 9990000)) 10000000 = none ∧
    securedGate "/health" true none [] none 0 = none :=
  ⟨(gate_check_order.1 none [] none 0).1,
   gate_check_order.2.1 [] none 0,
   by decide,
   gate_check_order.2.2.1 "short" [] none 0 (by decide),
   by decide,
   gate_check_order.2.2.2.1 _ _ none 0 (by decide) (by decide) (by decide),
   gate_check_order.2.2.2.2.2.1 _ _ 0 10000000 (by decide) (by decide)
     (Or.inl (by omega)),
   gate_check_order.2.2.2.2.2.2.1 _ _ 9990000 10000000 (by decide) (by decide)
     (by omega),
   (gate_check_order.2.2.2.2.2.2.2 true none [] none 0).1⟩

/-! ## Claim theorems for the Schema Validator and the secured routes -/

/-- Claim C4: a body the validator rejects is answered 400 with the single
first validation error found (the validator aborts at the first violation
and the route reports details[0].message, i.e. exactly that message), and
the upstream client is never invoked: whatever the guarded handler is, it
does not run, so zero outbound calls are attempted. -/
theorem rejected_body_never_reaches_upstream :
    ∀ (handler : Body → Outcome) (b : Body) (m : String),
      validateAnalyze true b = .error m →
      securedRoute handler b =
        .respond ⟨400, { error := some "Validation Error", message := some m,
                         code := some "INVALID_INPUT" }⟩ ∧
      ∀ (ty : String) (pl : JVal), securedRoute handler b ≠ .upstream ty pl := by
  intro handler b m h
  refine ⟨by simp [securedRoute, h], fun ty pl => by simp [securedRoute, h]⟩

/-- Witness for C4: the empty body is rejected with the first error (the
imageUrl message, although analysis_type is missing as well), and the
route answers 400 without reaching its handler. -/
theorem rejected_body_never_reaches_upstream_witness :
    validateAnalyze true [] = .error "\"imageUrl\" is required" ∧
    securedRoute securedBatchHandlerRaw [] =
      .respond ⟨400, { error := some "Validation Error",
                       message := some "\"imageUrl\" is required",
                       code := some "INVALID_INPUT" }⟩ :=
  ⟨rfl, (rejected_body_never_reaches_upstream securedBatchHandlerRaw []
          "\"imageUrl\" is required" rfl).1⟩

/-- A valid general-analysis body whose prompts array is empty. -/
def emptyPromptsBody : Body :=
  [("imageUrl", .str "https://x/img.jpg"),
   ("analysis_type", .str "ai_vision_general"),
   ("prompts", .arr [])]

/-- A valid tagging body whose tags array is empty. -/
def emptyTagsBody : Body :=
  [("imageUrl", .str "https://x/img.jpg"),
   ("analysis_type", .str "ai_vision_tagging"),
   ("tags", .arr [])]

/-- Claim C6, counterexample: the validator accepts a request whose prompts
array is present but empty (and likewise an empty tags array for tagging),
so acceptance does not require the arrays to be non-empty. -/
theorem validator_accepts_empty_arrays :
    validateAnalyze true emptyPromptsBody = .ok emptyPromptsBody ∧
    jget emptyPromptsBody "prompts" = some (.arr []) ∧
    validateAnalyze true emptyTagsBody = .ok emptyTagsBody ∧
    jget emptyTagsBody "tags" = some (.arr []) :=
  ⟨rfl, rfl, rfl, rfl⟩

/-- Claim C6 as amended: the validator requires presence, not
non-emptiness: when the analysis type is not tagging a missing prompts
field is rejected with the field-specific message naming prompts, when it
is tagging a missing tags field is rejected with the message naming tags,
and present-but-empty arrays are accepted. -/
theorem validator_conditional_presence :
    (∀ (b : Body) (ty : String),
      checkImageUrl true b = .ok () → checkAnalysisType b = .ok ty →
      (ty == "ai_vision_tagging") = false → jget b "prompts" = none →
      validateAnalyze true b = .error "\"prompts\" is required") ∧
    (∀ b : Body,
      checkImageUrl true b = .ok () →
      checkAnalysisType b = .ok "ai_vision_tagging" →
      jget b "prompts" = none → jget b "tags" = none →
      validateAnalyze true b = .error "\"tags\" is required") ∧
    validateAnalyze true emptyPromptsBody = .ok emptyPromptsBody ∧
    validateAnalyze true emptyTagsBody = .ok emptyTagsBody := by
  refine ⟨fun b ty h1 h2 h3 h4 => ?_, fun b h1 h2 h3 h4 => ?_, rfl, rfl⟩
  · simp [validateAnalyze, bind, Except.bind, h1, h2, checkPrompts, h3, h4, quoted]
  · simp [validateAnalyze, bind, Except.bind, h1, h2, checkPrompts, checkTags,
          h3, h4, quoted]

/-- Witness for the amended C6 at concrete bodies missing the conditional
field. -/
theorem validator_conditional_presence_witness :
    validateAnalyze true
        [("imageUrl", .str "https://x/img.jpg"),
         ("analysis_type", .str "ai_vision_general")] =
      .error "\"prompts\" is required" ∧
    validateAnalyze true
        [("imageUrl", .str "https://x/img.jpg"),
         ("analysis_type", .str "ai_vision_tagging")] =
      .error "\"tags\" is required" :=
  ⟨validator_conditional_presence.1 _ "ai_vision_general" rfl rfl (by decide) rfl,
   validator_conditional_presence.2.1 _ rfl rfl rfl rfl⟩

/-- Helper: a successful Except bind splits into successful steps. -/
theorem except_bind_ok {α β γ : Type} (x : Except α β) (f : β → Except α γ)
    (c : γ) (h : (x >>= f) = .ok c) : ∃ u, x = .ok u ∧ f u = .ok c := by
  cases x with
  | error e => simp [Bind.bind, Except.bind] at h
  | ok u => exact ⟨u, rfl, by simpa [Bind.bind, Except.bind] using h⟩

/-- Helper: a body the validator accepts is returned unchanged and passed
the unknown-keys rule. -/
theorem validateAnalyze_ok_elim (strict : Bool) (b v : Body)
    (h : validateAnalyze strict b = .ok v) :
    v = b ∧ checkUnknownKeys b = .ok () := by
  unfold validateAnalyze at h
  obtain ⟨u1, h1, h⟩ := except_bind_ok _ _ _ h
  obtain ⟨ty, h2, h⟩ := except_bind_ok _ _ _ h
  obtain ⟨u3, h3, h⟩ := except_bind_ok _ _ _ h
  obtain ⟨u4, h4, h⟩ := except_bind_ok _ _ _ h
  obtain ⟨u5, h5, h⟩ := except_bind_ok _ _ _ h
  obtain ⟨u6, h6, h⟩ := except_bind_ok _ _ _ h
  cases u6
  refine ⟨?_, h6⟩
  simpa [pure, Except.pure] using h.symm

/-- Helper: a body that passed the unknown-keys rule has no key outside
the schema, in particular none of the camelCase batch field names. -/
theorem checkUnknownKeys_ok_no_key (b : Body) (k : String)
    (hk : allowedKeys.contains k = false)
    (h : checkUnknownKeys b = .ok ()) : jget b k = none := by
  unfold checkUnknownKeys at h
  cases hf : b.find? (fun p => !(allowedKeys.contains p.1)) with
  | some p => rw [hf] at h; simp at h
  | none =>
    have hall := List.find?_eq_none.mp hf
    unfold jget
    rw [List.find?_eq_none.mpr]
    · rfl
    · intro p hp hbeq
      have h2 : allowedKeys.contains p.1 = true := by
        have h3 := hall p hp
        simpa using h3
      have h4 : p.1 = k := by simpa using hbeq
      rw [h4, hk] at h2
      cases h2

/-- Claim C3, counterexample: the secured /batch-analyze route rejects the
camelCase body with 400 at validation (the snake_case schema requires
analysis_type), so it does not accept the body nor build any payload. -/
theorem secured_batch_rejects_camel_case :
    securedBatchRoute
        [("imageUrl", .str "https://x/img.jpg"),
         ("analysisType", .str "ai_vision_general"),
         ("analysisData", .arr [.str "describe the image"])] =
      .respond ⟨400, { error := some "Validation Error",
                       message := some "\"analysis_type\" is required",
                       code := some "INVALID_INPUT" }⟩ := rfl

/-- Claim C3 as amended: only the serverless variant accepts the camelCase
body and builds the provider payload with analysisData in the role selected
by analysisType; the secured variant validates every body against the
snake_case schema (which forbids the camelCase keys), and in fact its
/batch-analyze route can never issue an upstream call on any body, because
a body that passes validation cannot carry the analysisType key its switch
reads. -/
theorem batch_camel_case_serverless_only :
    (∀ u : String, (u == "") = false → ∀ xs : List JVal,
      serverlessBatchHandler "POST"
          [("imageUrl", .str u), ("analysisType", .str "ai_vision_general"),
           ("analysisData", .arr xs)] =
        .upstream "ai_vision_general"
          (.obj [("source", .obj [("uri", .str u)]), ("prompts", .arr xs)]) ∧
      serverlessBatchHandler "POST"
          [("imageUrl", .str u), ("analysisType", .str "ai_vision_moderation"),
           ("analysisData", .arr xs)] =
        .upstream "ai_vision_moderation"
          (.obj [("source", .obj [("uri", .str u)]), ("rejection_questions", .arr xs)]) ∧
      serverlessBatchHandler "POST"
          [("imageUrl", .str u), ("analysisType", .str "ai_vision_tagging"),
           ("analysisData", .arr xs)] =
        .upstream "ai_vision_tagging"
          (.obj [("source", .obj [("uri", .str u)]),
                 ("tag_definitions", .arr (xs.map tagFmtJ))])) ∧
    (∀ (b : Body) (ty : String) (pl : JVal),
      securedBatchRoute b ≠ .upstream ty pl) := by
  constructor
  · intro u h xs
    refine ⟨?_, ?_, ?_⟩ <;>
      simp [serverlessBatchHandler, jget, List.find?, truthy, isStrVal,
            jsonField, h]
  · intro b ty pl
    cases hv : validateAnalyze true b with
    | error m => simp [securedBatchRoute, securedRoute, hv]
    | ok v =>
      obtain ⟨hvb, hun⟩ := validateAnalyze_ok_elim true b v hv
      subst hvb
      have hat : jget v "analysisType" = none :=
        checkUnknownKeys_ok_no_key v "analysisType" (by decide) hun
      simp [securedBatchRoute, securedRoute, hv, securedBatchHandlerRaw, hat,
            isStrVal]

/-- Witness for the amended C3 at a concrete camelCase body. -/
theorem batch_camel_case_serverless_only_witness :
    serverlessBatchHandler "POST"
        [("imageUrl", .str "https://x/img.jpg"),
         ("analysisType", .str "ai_vision_general"),
         ("analysisData", .arr [.str "describe the image"])] =
      .upstream "ai_vision_general"
        (.obj [("source", .obj [("uri", .str "https://x/img.jpg")]),
               ("prompts", .arr [.str "describe the image"])]) :=
  (batch_camel_case_serverless_only.1 "https://x/img.jpg" (by decide)
    [.str "describe the image"]).1

end Gateway
